import Mathlib

/-!
Verification development for the pdf-tools repository.

The geometry of the sheet-layout engine (src/pdf_rotator_cli.py and
src/pdf_rotator.py), the driver loop, the natural-sort merge order of
src/main.py, and the title-page word-wrap of src/main.py are embedded as
executable Lean definitions over exact rational arithmetic.  Decimal
literals of the Python source (0.1, 1.0, 0.8, the reportlab A4 constants)
are represented by the exact rationals they denote.
-/

/-- A4 sheet width in PostScript points: 210 mm at 72/25.4 points per mm
(the reportlab `A4` constant), as an exact rational. -/
def A4_WIDTH : ℚ := 75600 / 127

/-- A4 sheet height in PostScript points: 297 mm at 72/25.4 points per mm. -/
def A4_HEIGHT : ℚ := 106920 / 127

/-- Source page as consumed by the layout code: its media-box width and
height (`float(src_page.mediabox.width)` / `.height`). -/
structure SrcPage where
  width : ℚ
  height : ℚ
deriving DecidableEq

/-- Placement computed for one source page: the uniform scale and the final
translation of the composed transformation (the rotation is fixed at 90
degrees counter-clockwise in the source). -/
structure Placement where
  scale : ℚ
  tx : ℚ
  ty : ℚ
deriving DecidableEq

/-- Rectangular region of the output sheet reserved for one source page. -/
structure Slot where
  x : ℚ
  y : ℚ
  width : ℚ
  height : ℚ
deriving DecidableEq

/-- A slot lies within the sheet bounds: whenever it is non-degenerate
(non-negative width and height), all four corners are inside the A4 page. -/
def Slot.insideSheet (s : Slot) : Prop :=
  0 ≤ s.width → 0 ≤ s.height →
    0 ≤ s.x ∧ s.x + s.width ≤ A4_WIDTH ∧ 0 ≤ s.y ∧ s.y + s.height ≤ A4_HEIGHT

/-- Two slots do not overlap: they are separated along one of the axes
(touching along a shared edge is allowed). -/
def Slot.separated (s t : Slot) : Prop :=
  s.x + s.width ≤ t.x ∨ t.x + t.width ≤ s.x ∨
  s.y + s.height ≤ t.y ∨ t.y + t.height ≤ s.y

instance (s : Slot) : Decidable s.insideSheet := by
  unfold Slot.insideSheet; infer_instance

instance (s t : Slot) : Decidable (s.separated t) := by
  unfold Slot.separated; infer_instance

namespace Cli

/-!
Embedding of `place_rotated` inside `arrange_pages_on_a4_rotated`
(src/pdf_rotator_cli.py lines 41-77) and of `place_at` inside
`arrange_pages_on_a4_rotated_three` (lines 85-122).
-/

/-- Slot width chosen by `place_rotated` (cli lines 42-49): full width for
`top-bottom`, otherwise `(A4_WIDTH - gap) / 2`. -/
def slot_width (orientation : String) (gap : ℚ) : ℚ :=
  if orientation = "top-bottom" then A4_WIDTH else (A4_WIDTH - gap) / 2

/-- Slot height chosen by `place_rotated` (cli lines 42-49):
`(A4_HEIGHT - gap) / 2` for `top-bottom`, otherwise full height. -/
def slot_height (orientation : String) (gap : ℚ) : ℚ :=
  if orientation = "top-bottom" then (A4_HEIGHT - gap) / 2 else A4_HEIGHT

/-- Fit scale (cli line 54): after the 90 degree rotation the dimensions
swap (`rot_w, rot_h = h, w`), and
`max_scale = min(slot_width / rot_w if rot_w else 1, slot_height / rot_h if rot_h else 1)`. -/
def max_scale (orientation : String) (gap : ℚ) (src : SrcPage) : ℚ :=
  min (if src.height ≠ 0 then slot_width orientation gap / src.height else 1)
      (if src.width ≠ 0 then slot_height orientation gap / src.width else 1)

/-- The size-factor clamp of cli line 55: `max(0.1, min(1.0, size_factor))`. -/
def size_clamp (size_factor : ℚ) : ℚ :=
  max (1 / 10) (min 1 size_factor)

/-- Effective scale (cli line 55): clamped size factor times the fit scale. -/
def scale (orientation : String) (gap size_factor : ℚ) (src : SrcPage) : ℚ :=
  size_clamp size_factor * max_scale orientation gap src

/-- Scaled content width (cli lines 59/65): `rot_w * scale` with `rot_w = h`. -/
def content_w (orientation : String) (gap size_factor : ℚ) (src : SrcPage) : ℚ :=
  src.height * scale orientation gap size_factor src

/-- Scaled content height (cli lines 60/66): `rot_h * scale` with `rot_h = w`. -/
def content_h (orientation : String) (gap size_factor : ℚ) (src : SrcPage) : ℚ :=
  src.width * scale orientation gap size_factor src

/-- Horizontal slot origin for the side-by-side branch (cli line 64):
`0` for slot 0, `slot_width + gap` for slot 1. -/
def base_x (orientation : String) (gap : ℚ) (slot_index : ℕ) : ℚ :=
  if slot_index = 0 then 0 else slot_width orientation gap + gap

/-- Vertical slot origin for the top-bottom branch (cli line 58):
`slot_height + gap` for slot 0 (upper), `0` for slot 1 (lower). -/
def base_y (orientation : String) (gap : ℚ) (slot_index : ℕ) : ℚ :=
  if slot_index = 0 then slot_height orientation gap + gap else 0

/-- Horizontal translation (cli lines 61/67), centering content in the slot. -/
def tx (orientation : String) (gap size_factor : ℚ) (src : SrcPage) (slot_index : ℕ) : ℚ :=
  if orientation = "top-bottom" then
    (A4_WIDTH - content_w orientation gap size_factor src) / 2
  else
    base_x orientation gap slot_index +
      (slot_width orientation gap - content_w orientation gap size_factor src) / 2

/-- Vertical translation (cli lines 62/68), centering content in the slot. -/
def ty (orientation : String) (gap size_factor : ℚ) (src : SrcPage) (slot_index : ℕ) : ℚ :=
  if orientation = "top-bottom" then
    base_y orientation gap slot_index +
      (slot_height orientation gap - content_h orientation gap size_factor src) / 2
  else
    (A4_HEIGHT - content_h orientation gap size_factor src) / 2

/-- The placement computed by `place_rotated` (cli lines 41-77): the uniform
scale and the final translation of the transformation
`rotate(90).translate(h, 0).scale(scale).translate(tx, ty)`. -/
def place_rotated (orientation : String) (gap size_factor : ℚ) (src : SrcPage)
    (slot_index : ℕ) : Placement :=
  { scale := scale orientation gap size_factor src
    tx := tx orientation gap size_factor src slot_index
    ty := ty orientation gap size_factor src slot_index }

/-- Slot rectangle used by the two-page composer: side-by-side slots span the
full sheet height starting at `base_x`; top-bottom slots span the full sheet
width starting at `base_y`. -/
def slot_rect2 (orientation : String) (gap : ℚ) (slot_index : ℕ) : Slot :=
  if orientation = "top-bottom" then
    { x := 0, y := base_y orientation gap slot_index
      width := slot_width orientation gap, height := slot_height orientation gap }
  else
    { x := base_x orientation gap slot_index, y := 0
      width := slot_width orientation gap, height := slot_height orientation gap }

/-- Slot width of the three-row layout (cli lines 90-93):
`available_width / cols` with `cols = 1`. -/
def slot_width3 : ℚ := A4_WIDTH / 1

/-- Slot height of the three-row layout (cli lines 90-94):
`(A4_HEIGHT - (rows - 1) * gap) / rows` with `rows = 3`. -/
def slot_height3 (gap : ℚ) : ℚ := (A4_HEIGHT - (3 - 1) * gap) / 3

/-- Vertical slot origin of row `row_index` in the three-row layout (cli line
98): `A4_HEIGHT - ((row_index + 1) * slot_height) - (row_index * gap)`. -/
def base_y3 (gap : ℚ) (row_index : ℕ) : ℚ :=
  A4_HEIGHT - ((row_index : ℚ) + 1) * slot_height3 gap - (row_index : ℚ) * gap

/-- Fit scale of the three-row layout (cli line 103). -/
def max_scale3 (gap : ℚ) (src : SrcPage) : ℚ :=
  min (if src.height ≠ 0 then slot_width3 / src.height else 1)
      (if src.width ≠ 0 then slot_height3 gap / src.width else 1)

/-- Effective scale of the three-row layout (cli line 104). -/
def scale3 (gap size_factor : ℚ) (src : SrcPage) : ℚ :=
  size_clamp size_factor * max_scale3 gap src

/-- The placement computed by `place_at` (cli lines 96-117). -/
def place_at (gap size_factor : ℚ) (src : SrcPage) (row_index : ℕ) : Placement :=
  { scale := scale3 gap size_factor src
    tx := 0 + (slot_width3 - src.height * scale3 gap size_factor src) / 2
    ty := base_y3 gap row_index +
      (slot_height3 gap - src.width * scale3 gap size_factor src) / 2 }

/-- Slot rectangle of row `row_index` in the three-row layout. -/
def slot_rect3 (gap : ℚ) (row_index : ℕ) : Slot :=
  { x := 0, y := base_y3 gap row_index
    width := slot_width3, height := slot_height3 gap }

end Cli

namespace Gui

/-!
Embedding of `place_rotated` inside `arrange_pages_on_a4_rotated`
(src/pdf_rotator.py lines 77-121).  Identical slot geometry to the CLI
version, but there is no size factor: the effective scale is the fit scale.
-/

/-- Slot width chosen by `place_rotated` (gui lines 80-87). -/
def slot_width (orientation : String) (gap : ℚ) : ℚ :=
  if orientation = "top-bottom" then A4_WIDTH else (A4_WIDTH - gap) / 2

/-- Slot height chosen by `place_rotated` (gui lines 80-87). -/
def slot_height (orientation : String) (gap : ℚ) : ℚ :=
  if orientation = "top-bottom" then (A4_HEIGHT - gap) / 2 else A4_HEIGHT

/-- Scale of gui line 95:
`min(slot_width / rot_w if rot_w else 1, slot_height / rot_h if rot_h else 1)`
with `rot_w = h` and `rot_h = w`. -/
def scale (orientation : String) (gap : ℚ) (src : SrcPage) : ℚ :=
  min (if src.height ≠ 0 then slot_width orientation gap / src.height else 1)
      (if src.width ≠ 0 then slot_height orientation gap / src.width else 1)

/-- Horizontal translation (gui lines 102/108). -/
def tx (orientation : String) (gap : ℚ) (src : SrcPage) (slot_index : ℕ) : ℚ :=
  if orientation = "top-bottom" then
    (A4_WIDTH - src.height * scale orientation gap src) / 2
  else
    (if slot_index = 0 then 0 else slot_width orientation gap + gap) +
      (slot_width orientation gap - src.height * scale orientation gap src) / 2

/-- Vertical translation (gui lines 99/103/109). -/
def ty (orientation : String) (gap : ℚ) (src : SrcPage) (slot_index : ℕ) : ℚ :=
  if orientation = "top-bottom" then
    (if slot_index = 0 then slot_height orientation gap + gap else 0) +
      (slot_height orientation gap - src.width * scale orientation gap src) / 2
  else
    (A4_HEIGHT - src.width * scale orientation gap src) / 2

/-- The placement computed by the GUI variant of `place_rotated`. -/
def place_rotated (orientation : String) (gap : ℚ) (src : SrcPage)
    (slot_index : ℕ) : Placement :=
  { scale := scale orientation gap src
    tx := tx orientation gap src slot_index
    ty := ty orientation gap src slot_index }

end Gui

namespace Driver

/-!
Embedding of the per-document driver loops.  `sheets2` follows the valid
two-up loop of src/pdf_rotator.py `process_pdf` (lines 163-179): pages are
consumed in pairs, one output sheet per pair or final single page.
`sheets3` models the three-up grouping of the CLI driver.
-/

/-- Output sheets produced by the two-up loop (src/pdf_rotator.py lines
163-179): `for i in range(0, total_pages, 2)` adds exactly one sheet per
iteration. -/
def sheets2 : ℕ → ℕ
  | 0 => 0
  | 1 => 1
  | n + 2 => 1 + sheets2 n

/-- Modelled from the spec: output sheets of the CLI driver loop with
`step = 3` for the `top-bottom-3` layout.  The corresponding lines of
src/pdf_rotator_cli.py (152-166) are mis-indented and do not parse as
Python, so the three-up grouping (`ceil(N / 3)` sheets, per the spec's
driver contract) is modelled from the spec here. -/
def sheets3 : ℕ → ℕ
  | 0 => 0
  | 1 => 1
  | 2 => 1
  | n + 3 => 1 + sheets3 n

/-- Sheets for a layout name: step 3 only for `top-bottom-3`, step 2
otherwise (`step = 3 if layout == "top-bottom-3" else 2`). -/
def sheetsFor (layout : String) (total_pages : ℕ) : ℕ :=
  if layout = "top-bottom-3" then sheets3 total_pages else sheets2 total_pages

end Driver

namespace Merge

/-!
Embedding of the merge tool of src/main.py: `natural_key` (lines 38-41),
`iter_pdfs` sorting (lines 43-48), `Path.stem` title text, the
empty-text guard of `make_title_page` (line 56), and the page schedule of
`merge` (lines 110-215) on its success path.
-/

/-- One element of a natural-sort key: `int(s) if s.isdigit() else s.lower()`. -/
inductive Atom where
  | str : String → Atom
  | num : ℕ → Atom
deriving DecidableEq

/-- Code-point comparison of character lists, as Python compares strings. -/
def strLtChars : List Char → List Char → Bool
  | [], [] => false
  | [], _ :: _ => true
  | _ :: _, [] => false
  | a :: as, b :: bs =>
    if a.toNat < b.toNat then true
    else if b.toNat < a.toNat then false
    else strLtChars as bs

/-- Strict comparison of key elements.  Python compares ints with ints and
strings with strings; a mixed comparison would raise `TypeError`, and is
unreachable for keys produced by `natural_key` because `re.split` with a
captured group always alternates non-digit segments (even positions) with
digit segments (odd positions), starting and ending with a possibly empty
non-digit segment.  The mixed cases are mapped to `false`. -/
def Atom.lt : Atom → Atom → Bool
  | .str a, .str b => strLtChars a.data b.data
  | .num a, .num b => decide (a < b)
  | .num _, .str _ => false
  | .str _, .num _ => false

/-- Lexicographic comparison of whole keys, as Python compares lists. -/
def keyLt : List Atom → List Atom → Bool
  | [], [] => false
  | [], _ :: _ => true
  | _ :: _, [] => false
  | a :: as, b :: bs =>
    if Atom.lt a b then true
    else if Atom.lt b a then false
    else keyLt as bs

/-- Decimal value of a digit run, as `int(s)` computes it. -/
def digitVal (run : List Char) : ℕ :=
  run.foldl (fun n c => 10 * n + (c.toNat - 48)) 0

/-- One finished segment of the key: a digit run becomes `int(s)`, a
non-digit run becomes `s.lower()` (the run is accumulated in reverse). -/
def mkAtom (isDigitRun : Bool) (runRev : List Char) : Atom :=
  if isDigitRun then Atom.num (digitVal runRev.reverse)
  else Atom.str (String.mk (runRev.reverse.map Char.toLower))

/-- Left-to-right scan splitting a name into maximal digit / non-digit runs,
mirroring `re.split(r"(\d+)", name)`: starting in non-digit mode with an
empty run produces the leading empty segment `re.split` emits before a
leading digit run, and a trailing digit run is followed by a final empty
non-digit segment. -/
def natKeyLoop : List Char → Bool → List Char → List Atom → List Atom
  | [], isD, run, acc =>
    acc.reverse ++ mkAtom isD run :: (if isD then [Atom.str ""] else [])
  | c :: cs, isD, run, acc =>
    if c.isDigit = isD then natKeyLoop cs isD (c :: run) acc
    else natKeyLoop cs c.isDigit [c] (mkAtom isD run :: acc)

/-- `natural_key` of src/main.py lines 38-41: digit runs compared as
integers, case-insensitive lexical comparison elsewhere. -/
def natural_key (name : String) : List Atom :=
  natKeyLoop name.data false [] []

/-- A PDF file of the input directory: its file name and its page count. -/
structure PdfFile where
  name : String
  numPages : ℕ
deriving DecidableEq

/-- Stable insertion of a file into an already sorted list: the file goes in
front of the first element that is not strictly below it, so files with
equal keys keep their original relative order, as Python's stable sort
does. -/
def insortFile (x : PdfFile) : List PdfFile → List PdfFile
  | [] => [x]
  | y :: ys =>
    if keyLt (natural_key y.name) (natural_key x.name) then y :: insortFile x ys
    else x :: y :: ys

/-- The sort of `iter_pdfs` (src/main.py lines 43-48):
`pdf_files.sort(key=lambda p: natural_key(p.name))`. -/
def sortFiles (files : List PdfFile) : List PdfFile :=
  files.foldr insortFile []

/-- `pathlib.Path.stem`: the name without its final suffix.  The suffix is
`name[i:]` for the last dot index `i` with `0 < i < len(name) - 1`;
otherwise the stem is the whole name. -/
def stem (name : String) : String :=
  let rev := name.data.reverse
  let extRev := rev.takeWhile (fun c => c ≠ '.')
  match rev.dropWhile (fun c => c ≠ '.') with
  | [] => name
  | _ :: beforeRev =>
    if beforeRev = [] ∨ extRev = [] then name
    else String.mk beforeRev.reverse

/-- One page of the merged output document: either the auto-generated title
page bearing a file's stem, or one (A4-normalized) content page of a named
file. -/
inductive OutPage where
  | title : String → OutPage
  | content : String → ℕ → OutPage
deriving DecidableEq

/-- Pages contributed by one file on the success path of `merge`
(src/main.py lines 126-179): its title page first (absent when
`make_title_page` returns `None`, i.e. when the title text is empty, line
56), then its content pages in order. -/
def filePages (f : PdfFile) : List OutPage :=
  (if stem f.name = "" then [] else [OutPage.title (stem f.name)]) ++
    (List.range f.numPages).map (OutPage.content f.name)

/-- Page order of the merged output on the success path: files in
natural-sort order, each contributing its title page then its content. -/
def merge_pages (files : List PdfFile) : List OutPage :=
  (sortFiles files).flatMap filePages

end Merge

namespace MergeErr

/-!
Embedding of the error-handling control flow of `merge` (src/main.py lines
144-215) and of `process_pdf` (src/pdf_rotator.py lines 143-198).  Reading a
PDF is an external operation; its outcome is modelled as data: either a page
count, or a raised error together with whether the error object carries a
`strict` attribute and that attribute's truth value (the code tests
`hasattr(e, 'strict') and e.strict`).
-/

/-- Outcome of one attempted read of a source PDF. -/
inductive ReadOutcome where
  | ok : ℕ → ReadOutcome
  | err : Bool → Bool → ReadOutcome
deriving DecidableEq

/-- Whether an outcome is a raised error. -/
def ReadOutcome.isErr : ReadOutcome → Bool
  | .ok _ => false
  | .err _ _ => true

/-- One input file of the merge run: its name, the outcome of the first
(strict) read, and the outcome a lenient (`strict=False`) read would have. -/
structure MFile where
  name : String
  firstRead : ReadOutcome
  retryRead : ReadOutcome
deriving DecidableEq

/-- Number of lenient retries `merge` performs for one file (src/main.py
lines 181-187): a retry happens only when the first read raises an error
whose object has a truthy `strict` attribute. -/
def fileRetries (f : MFile) : ℕ :=
  match f.firstRead with
  | .ok _ => 0
  | .err hasStrict strictVal => if hasStrict && strictVal then 1 else 0

/-- Whether `merge` ends the file with `file_processed = True` (src/main.py
lines 145-215): the first read succeeds, or the conditional lenient retry
succeeds; otherwise the file is skipped. -/
def fileProcessed (f : MFile) : Bool :=
  match f.firstRead with
  | .ok _ => true
  | .err hasStrict strictVal =>
    if hasStrict && strictVal then
      match f.retryRead with
      | .ok _ => true
      | .err _ _ => false
    else false

/-- `merged_count` after the loop of `merge`: the number of files that ended
with `file_processed = True`; skipped files do not stop the loop. -/
def mergedCount (files : List MFile) : ℕ :=
  (files.filter (fun f => fileProcessed f)).length

/-- Result of `process_pdf` of src/pdf_rotator.py (lines 143-198): the whole
loop sits inside a single try/except, so a raised read or processing error
aborts the entire run with `-1`; there is no per-sheet recovery.  On success
the function returns the total page count (and `-1` for an empty input). -/
def process_pdf_result (read : ReadOutcome) : ℤ :=
  match read with
  | .ok n => if n = 0 then -1 else (n : ℤ)
  | .err _ _ => -1

end MergeErr

namespace Titles

/-!
Embedding of `make_title_page` (src/main.py lines 50-107).  The rendered
width of a string at 32 pt Helvetica-Bold (`c.stringWidth`) is external font
metrics, taken as a parameter `sw`; the exceptional rendering path (the
`except` of lines 101-103) is external as well, so the embedding covers the
non-raising path.  Decimal `0.8` is the exact rational 8/10.
-/

/-- The wrap budget of line 66: `max_width = width * 0.8` for an A4 canvas. -/
def max_width : ℚ := A4_WIDTH * (8 / 10)

/-- Character-list scan behind `pySplit`: accumulate the current word in
reverse, emit it when a whitespace character or the end of the string is
reached, and never emit empty words. -/
def pyWords : List Char → List Char → List String
  | [], acc => if acc = [] then [] else [String.mk acc.reverse]
  | c :: cs, acc =>
    if c.isWhitespace then
      if acc = [] then pyWords cs [] else String.mk acc.reverse :: pyWords cs []
    else pyWords cs (c :: acc)

/-- `text.split()` of line 71: split on whitespace runs, discarding empty
pieces. -/
def pySplit (s : String) : List String :=
  pyWords s.data []

/-- `f"{current_line} {part}".strip()` of line 75, for `current_line` and
`part` free of leading and trailing whitespace (as the words produced by
`text.split()` are). -/
def testLine (current part : String) : String :=
  if current = "" then part else current ++ " " ++ part

/-- Loop state of the greedy wrap: the finished lines and the line being
accumulated. -/
structure WrapState where
  lines : List String
  current : String
deriving DecidableEq

/-- One iteration of the wrap loop (lines 74-86): extend the current line
while it stays within the budget; otherwise flush the non-empty current
line, start a new line with the word, and emit an over-wide word
immediately on its own line. -/
def wrapStep (sw : String → ℚ) (maxW : ℚ) (st : WrapState) (part : String) :
    WrapState :=
  let t := testLine st.current part
  if sw t ≤ maxW then { st with current := t }
  else
    let lines1 := if st.current = "" then st.lines else st.lines ++ [st.current]
    if maxW < sw part then { lines := lines1 ++ [part], current := "" }
    else { lines := lines1, current := part }

/-- After the loop (lines 88-89): a non-empty current line is flushed. -/
def wrapFinish (st : WrapState) : List String :=
  if st.current = "" then st.lines else st.lines ++ [st.current]

/-- The full greedy word-wrap of lines 71-89. -/
def wrapLines (sw : String → ℚ) (maxW : ℚ) (parts : List String) : List String :=
  wrapFinish (parts.foldl (wrapStep sw maxW) { lines := [], current := "" })

/-- The lines drawn on the title page (lines 66-96): the wrap runs only when
the rendered width of the whole text exceeds the budget; otherwise the text
is drawn as a single centered line. -/
def title_lines (sw : String → ℚ) (text : String) : List String :=
  if max_width < sw text then wrapLines sw max_width (pySplit text) else [text]

/-- `make_title_page` (lines 50-100) on the non-raising path: `None` exactly
when the guard `if not text` fires, i.e. for the empty string; any other
text yields one page carrying `title_lines`. -/
def make_title_page (sw : String → ℚ) (text : String) : Option (List String) :=
  if text = "" then none else some (title_lines sw text)

/-- Concrete stand-in font metric used for closed witnesses and
counterexamples: 20 points per character. -/
def sw0 : String → ℚ := fun s => 20 * (s.length : ℚ)

/-- The words rejoined exactly as the accepting path of the loop would
rebuild them: a left fold of `testLine`, i.e. the words joined by single
spaces. -/
def joinWords (parts : List String) : String :=
  parts.foldl testLine ""

/-- A produced line is within budget, or is one of the original words and
wider than the budget (placed alone, unmodified). -/
def GoodLine (sw : String → ℚ) (maxW : ℚ) (parts : List String) (l : String) :
    Prop :=
  sw l ≤ maxW ∨ (l ∈ parts ∧ maxW < sw l)

/-- Invariant of the wrap loop for line quality: every finished line is
good, and the line being accumulated is empty or within budget. -/
def LinesGood (sw : String → ℚ) (maxW : ℚ) (parts : List String)
    (st : WrapState) : Prop :=
  (∀ l ∈ st.lines, GoodLine sw maxW parts l) ∧
  (st.current = "" ∨ sw st.current ≤ maxW)

/-- Number of lines the state would yield if flushed now. -/
def wrapTotal (st : WrapState) : ℕ :=
  st.lines.length + (if st.current = "" then 0 else 1)

/-- Invariant of the wrap loop for line counting, after the words in
`processed` have been consumed.  Either no break has happened yet (all the
processed words are joined in the current line, which is within budget and
non-empty once a word has been consumed), or the state already guarantees
two lines, or exactly one over-wide first word has been flushed with
nothing pending. -/
def CountInv (sw : String → ℚ) (maxW : ℚ) (processed : List String)
    (st : WrapState) : Prop :=
  (st.lines = [] ∧ st.current = joinWords processed ∧
    (processed = [] ∨ (sw st.current ≤ maxW ∧ st.current ≠ ""))) ∨
  2 ≤ wrapTotal st ∨
  (st.lines.length = 1 ∧ st.current = "" ∧ processed.length = 1)

end Titles

/-!
Helper lemmas shared by the geometry theorems.
-/

theorem A4_WIDTH_pos : 0 < A4_WIDTH := by norm_num [A4_WIDTH]

theorem A4_HEIGHT_pos : 0 < A4_HEIGHT := by norm_num [A4_HEIGHT]

theorem size_clamp_nonneg (f : ℚ) : 0 ≤ Cli.size_clamp f :=
  le_trans (by norm_num) (le_max_left _ _)

theorem size_clamp_le_one (f : ℚ) : Cli.size_clamp f ≤ 1 :=
  max_le (by norm_num) (min_le_left _ _)

/-- Core fit-scale estimate: a clamped factor times the fit scale stays below
the fit scale, and scaling the rotated dimensions by it keeps them inside
the slot. -/
theorem fit_core (slotW slotH rotW rotH c : ℚ)
    (hw : 0 < rotW) (hh : 0 < rotH) (hsw : 0 ≤ slotW) (hsh : 0 ≤ slotH)
    (hc1 : c ≤ 1) :
    c * min (slotW / rotW) (slotH / rotH) ≤ min (slotW / rotW) (slotH / rotH) ∧
    rotW * (c * min (slotW / rotW) (slotH / rotH)) ≤ slotW ∧
    rotH * (c * min (slotW / rotW) (slotH / rotH)) ≤ slotH := by
  set m := min (slotW / rotW) (slotH / rotH) with hm
  have hm0 : 0 ≤ m := le_min (div_nonneg hsw hw.le) (div_nonneg hsh hh.le)
  have hcm : c * m ≤ m := mul_le_of_le_one_left hm0 hc1
  refine ⟨hcm, ?_, ?_⟩
  · have h1 : c * m ≤ slotW / rotW := le_trans hcm (min_le_left _ _)
    have h2 := mul_le_mul_of_nonneg_left h1 hw.le
    calc rotW * (c * m) ≤ rotW * (slotW / rotW) := h2
      _ = slotW := by field_simp
  · have h1 : c * m ≤ slotH / rotH := le_trans hcm (min_le_right _ _)
    have h2 := mul_le_mul_of_nonneg_left h1 hh.le
    calc rotH * (c * m) ≤ rotH * (slotH / rotH) := h2
      _ = slotH := by field_simp

theorem cli_slot_width_nonneg (orientation : String) (gap : ℚ)
    (hgW : gap ≤ A4_WIDTH) : 0 ≤ Cli.slot_width orientation gap := by
  unfold Cli.slot_width
  split
  · exact A4_WIDTH_pos.le
  · linarith

theorem cli_slot_height_nonneg (orientation : String) (gap : ℚ)
    (hgH : gap ≤ A4_HEIGHT) : 0 ≤ Cli.slot_height orientation gap := by
  unfold Cli.slot_height
  split
  · linarith
  · exact A4_HEIGHT_pos.le

/-- C1: for every source page with positive width and height, every slot
index, every orientation and every size factor, the placement computed for a
rotated page has effective scale at most the fit scale, the scaled rotated
dimensions (`content_w = rot_w * scale`, `content_h = rot_h * scale`) do not
exceed the slot's width and height, and the two content dimensions carry the
same uniform scale, so the aspect ratio `rot_w / rot_h = h / w` is
preserved.  This holds for the CLI `place_rotated` (with size factor) and
for the GUI `place_rotated` (whose effective scale is the fit scale
itself). -/
theorem C1_rotated_content_fits_slot (orientation : String) (gap f : ℚ)
    (src : SrcPage) (slot_index : ℕ)
    (hw : 0 < src.width) (hh : 0 < src.height)
    (hgW : gap ≤ A4_WIDTH) (hgH : gap ≤ A4_HEIGHT) :
    Cli.scale orientation gap f src ≤ Cli.max_scale orientation gap src ∧
    Cli.content_w orientation gap f src ≤ Cli.slot_width orientation gap ∧
    Cli.content_h orientation gap f src ≤ Cli.slot_height orientation gap ∧
    Cli.content_w orientation gap f src * src.width =
      Cli.content_h orientation gap f src * src.height ∧
    (Cli.place_rotated orientation gap f src slot_index).scale =
      Cli.scale orientation gap f src ∧
    src.height * Gui.scale orientation gap src ≤ Gui.slot_width orientation gap ∧
    src.width * Gui.scale orientation gap src ≤ Gui.slot_height orientation gap := by
  have hsw := cli_slot_width_nonneg orientation gap hgW
  have hsh := cli_slot_height_nonneg orientation gap hgH
  have hms : Cli.max_scale orientation gap src =
      min (Cli.slot_width orientation gap / src.height)
          (Cli.slot_height orientation gap / src.width) := by
    unfold Cli.max_scale
    rw [if_pos hh.ne', if_pos hw.ne']
  have hcore := fit_core (Cli.slot_width orientation gap)
    (Cli.slot_height orientation gap) src.height src.width
    (Cli.size_clamp f) hh hw hsw hsh (size_clamp_le_one f)
  have hgsw : Gui.slot_width orientation gap = Cli.slot_width orientation gap := rfl
  have hgsh : Gui.slot_height orientation gap = Cli.slot_height orientation gap := rfl
  have hgs : Gui.scale orientation gap src =
      min (Cli.slot_width orientation gap / src.height)
          (Cli.slot_height orientation gap / src.width) := by
    unfold Gui.scale
    rw [if_pos hh.ne', if_pos hw.ne', hgsw, hgsh]
  have hcore1 := fit_core (Cli.slot_width orientation gap)
    (Cli.slot_height orientation gap) src.height src.width
    1 hh hw hsw hsh (le_refl 1)
  refine ⟨?_, ?_, ?_, ?_, rfl, ?_, ?_⟩
  · rw [Cli.scale, hms]; exact hcore.1
  · rw [Cli.content_w, Cli.scale, hms]; exact hcore.2.1
  · rw [Cli.content_h, Cli.scale, hms]; exact hcore.2.2
  · unfold Cli.content_w Cli.content_h; ring
  · rw [hgs, hgsw]
    have := hcore1.2.1
    rwa [one_mul] at this
  · rw [hgs, hgsh]
    have := hcore1.2.2
    rwa [one_mul] at this

/-- Witness for C1 at a Letter-size page (612 x 792 points) in the left
side-by-side slot with gap 20 and size factor 1. -/
theorem C1_witness :
    0 < (612 : ℚ) ∧ 0 < (792 : ℚ) ∧ (20 : ℚ) ≤ A4_WIDTH ∧ (20 : ℚ) ≤ A4_HEIGHT ∧
    (Cli.scale "side-by-side" 20 1 ⟨612, 792⟩ ≤
        Cli.max_scale "side-by-side" 20 ⟨612, 792⟩ ∧
      Cli.content_w "side-by-side" 20 1 ⟨612, 792⟩ ≤ Cli.slot_width "side-by-side" 20 ∧
      Cli.content_h "side-by-side" 20 1 ⟨612, 792⟩ ≤ Cli.slot_height "side-by-side" 20 ∧
      Cli.content_w "side-by-side" 20 1 ⟨612, 792⟩ * (612 : ℚ) =
        Cli.content_h "side-by-side" 20 1 ⟨612, 792⟩ * (792 : ℚ) ∧
      (Cli.place_rotated "side-by-side" 20 1 ⟨612, 792⟩ 0).scale =
        Cli.scale "side-by-side" 20 1 ⟨612, 792⟩ ∧
      (792 : ℚ) * Gui.scale "side-by-side" 20 ⟨612, 792⟩ ≤ Gui.slot_width "side-by-side" 20 ∧
      (612 : ℚ) * Gui.scale "side-by-side" 20 ⟨612, 792⟩ ≤ Gui.slot_height "side-by-side" 20) :=
  ⟨by norm_num, by norm_num, by norm_num [A4_WIDTH], by norm_num [A4_HEIGHT],
    C1_rotated_content_fits_slot "side-by-side" 20 1 ⟨612, 792⟩ 0
      (by norm_num) (by norm_num) (by norm_num [A4_WIDTH]) (by norm_num [A4_HEIGHT])⟩

/-!
Slot geometry helper lemmas for the three layouts.
-/

theorem slot_ss_0 (gap : ℚ) : Cli.slot_rect2 "side-by-side" gap 0 =
    { x := 0, y := 0, width := (A4_WIDTH - gap) / 2, height := A4_HEIGHT } := rfl

theorem slot_ss_1 (gap : ℚ) : Cli.slot_rect2 "side-by-side" gap 1 =
    { x := (A4_WIDTH - gap) / 2 + gap, y := 0,
      width := (A4_WIDTH - gap) / 2, height := A4_HEIGHT } := rfl

theorem slot_tb_0 (gap : ℚ) : Cli.slot_rect2 "top-bottom" gap 0 =
    { x := 0, y := (A4_HEIGHT - gap) / 2 + gap,
      width := A4_WIDTH, height := (A4_HEIGHT - gap) / 2 } := rfl

theorem slot_tb_1 (gap : ℚ) : Cli.slot_rect2 "top-bottom" gap 1 =
    { x := 0, y := 0, width := A4_WIDTH, height := (A4_HEIGHT - gap) / 2 } := rfl

theorem slot_r3 (gap : ℚ) (r : ℕ) : Cli.slot_rect3 gap r =
    { x := 0, y := A4_HEIGHT - ((r : ℚ) + 1) * ((A4_HEIGHT - 2 * gap) / 3) - (r : ℚ) * gap,
      width := A4_WIDTH, height := (A4_HEIGHT - 2 * gap) / 3 } := by
  unfold Cli.slot_rect3 Cli.base_y3 Cli.slot_height3 Cli.slot_width3
  norm_num


/-- C2: for every non-negative gap, the slot rectangles of the three layouts
follow the source formulas (side-by-side: width `(A4_WIDTH - gap) / 2`, full
height, second slot offset by `slot_width + gap`; top-bottom: height
`(A4_HEIGHT - gap) / 2`, full width, slot 0 uppermost; top-bottom-3: three
equal rows of height `(A4_HEIGHT - 2 * gap) / 3`, full width, row 0
topmost), are pairwise non-overlapping, and each lies within the sheet
bounds. -/
theorem C2_slot_geometry (gap : ℚ) (hg : 0 ≤ gap) :
    Cli.slot_rect2 "side-by-side" gap 0 =
      { x := 0, y := 0, width := (A4_WIDTH - gap) / 2, height := A4_HEIGHT } ∧
    Cli.slot_rect2 "side-by-side" gap 1 =
      { x := (A4_WIDTH - gap) / 2 + gap, y := 0,
        width := (A4_WIDTH - gap) / 2, height := A4_HEIGHT } ∧
    Cli.slot_rect2 "top-bottom" gap 0 =
      { x := 0, y := (A4_HEIGHT - gap) / 2 + gap,
        width := A4_WIDTH, height := (A4_HEIGHT - gap) / 2 } ∧
    Cli.slot_rect2 "top-bottom" gap 1 =
      { x := 0, y := 0, width := A4_WIDTH, height := (A4_HEIGHT - gap) / 2 } ∧
    (∀ r : ℕ, (Cli.slot_rect3 gap r).height = (A4_HEIGHT - 2 * gap) / 3 ∧
      (Cli.slot_rect3 gap r).width = A4_WIDTH) ∧
    (Cli.slot_rect2 "top-bottom" gap 1).y + (Cli.slot_rect2 "top-bottom" gap 1).height ≤
      (Cli.slot_rect2 "top-bottom" gap 0).y ∧
    (Cli.slot_rect3 gap 0).y + (Cli.slot_rect3 gap 0).height = A4_HEIGHT ∧
    (Cli.slot_rect3 gap 1).y + (Cli.slot_rect3 gap 1).height ≤ (Cli.slot_rect3 gap 0).y ∧
    (Cli.slot_rect3 gap 2).y + (Cli.slot_rect3 gap 2).height ≤ (Cli.slot_rect3 gap 1).y ∧
    Slot.separated (Cli.slot_rect2 "side-by-side" gap 0) (Cli.slot_rect2 "side-by-side" gap 1) ∧
    Slot.separated (Cli.slot_rect2 "top-bottom" gap 0) (Cli.slot_rect2 "top-bottom" gap 1) ∧
    Slot.separated (Cli.slot_rect3 gap 0) (Cli.slot_rect3 gap 1) ∧
    Slot.separated (Cli.slot_rect3 gap 0) (Cli.slot_rect3 gap 2) ∧
    Slot.separated (Cli.slot_rect3 gap 1) (Cli.slot_rect3 gap 2) ∧
    (Cli.slot_rect2 "side-by-side" gap 0).insideSheet ∧
    (Cli.slot_rect2 "side-by-side" gap 1).insideSheet ∧
    (Cli.slot_rect2 "top-bottom" gap 0).insideSheet ∧
    (Cli.slot_rect2 "top-bottom" gap 1).insideSheet ∧
    (Cli.slot_rect3 gap 0).insideSheet ∧
    (Cli.slot_rect3 gap 1).insideSheet ∧
    (Cli.slot_rect3 gap 2).insideSheet := by
  have hA4W := A4_WIDTH_pos
  have hA4H := A4_HEIGHT_pos
  refine ⟨slot_ss_0 gap, slot_ss_1 gap, slot_tb_0 gap, slot_tb_1 gap,
    ?_, ?_, ?_, ?_, ?_, ?_, ?_, ?_, ?_, ?_, ?_, ?_, ?_, ?_, ?_, ?_, ?_⟩
  · intro r
    rw [slot_r3]
    exact ⟨rfl, rfl⟩
  · rw [slot_tb_0, slot_tb_1]
    dsimp only
    linarith
  · rw [slot_r3]
    dsimp only
    push_cast
    ring
  · rw [slot_r3, slot_r3]
    dsimp only
    push_cast
    linarith
  · rw [slot_r3, slot_r3]
    dsimp only
    push_cast
    linarith
  · rw [slot_ss_0, slot_ss_1]
    unfold Slot.separated
    dsimp only
    left
    linarith
  · rw [slot_tb_0, slot_tb_1]
    unfold Slot.separated
    dsimp only
    right; right; right
    linarith
  · rw [slot_r3, slot_r3]
    unfold Slot.separated
    dsimp only
    right; right; right
    push_cast
    linarith
  · rw [slot_r3, slot_r3]
    unfold Slot.separated
    dsimp only
    right; right; right
    push_cast
    linarith
  · rw [slot_r3, slot_r3]
    unfold Slot.separated
    dsimp only
    right; right; right
    push_cast
    linarith
  · rw [slot_ss_0]
    unfold Slot.insideSheet
    dsimp only
    intro hW hH
    refine ⟨le_refl 0, by linarith, le_refl 0, by linarith⟩
  · rw [slot_ss_1]
    unfold Slot.insideSheet
    dsimp only
    intro hW hH
    refine ⟨by linarith, by linarith, le_refl 0, by linarith⟩
  · rw [slot_tb_0]
    unfold Slot.insideSheet
    dsimp only
    intro hW hH
    refine ⟨le_refl 0, by linarith, by linarith, by linarith⟩
  · rw [slot_tb_1]
    unfold Slot.insideSheet
    dsimp only
    intro hW hH
    refine ⟨le_refl 0, by linarith, le_refl 0, by linarith⟩
  · rw [slot_r3]
    unfold Slot.insideSheet
    dsimp only
    intro hW hH
    push_cast
    refine ⟨le_refl 0, by linarith, by linarith, by linarith⟩
  · rw [slot_r3]
    unfold Slot.insideSheet
    dsimp only
    intro hW hH
    push_cast
    refine ⟨le_refl 0, by linarith, by linarith, by linarith⟩
  · rw [slot_r3]
    unfold Slot.insideSheet
    dsimp only
    intro hW hH
    push_cast
    refine ⟨le_refl 0, by linarith, by linarith, by linarith⟩

/-- Witness for C2 at the default gap of 20 points. -/
theorem C2_witness :
    (0 : ℚ) ≤ 20 ∧
    Slot.separated (Cli.slot_rect2 "side-by-side" 20 0) (Cli.slot_rect2 "side-by-side" 20 1) ∧
    (Cli.slot_rect3 20 0).insideSheet :=
  ⟨by norm_num, (C2_slot_geometry 20 (by norm_num)).2.2.2.2.2.2.2.2.2.1,
    (C2_slot_geometry 20 (by norm_num)).2.2.2.2.2.2.2.2.2.2.2.2.2.2.2.2.2.2.1⟩

/-!
Driver-loop sheet counts.
-/

theorem sheets2_eq (n : ℕ) : Driver.sheets2 n = (n + 1) / 2 := by
  induction n using Nat.strong_induction_on with
  | _ n ih =>
    match n with
    | 0 => rfl
    | 1 => rfl
    | n + 2 =>
      rw [show Driver.sheets2 (n + 2) = 1 + Driver.sheets2 n from rfl, ih n (by omega)]
      omega

theorem sheets3_eq (n : ℕ) : Driver.sheets3 n = (n + 2) / 3 := by
  induction n using Nat.strong_induction_on with
  | _ n ih =>
    match n with
    | 0 => rfl
    | 1 => rfl
    | 2 => rfl
    | n + 3 =>
      rw [show Driver.sheets3 (n + 3) = 1 + Driver.sheets3 n from rfl, ih n (by omega)]
      omega

/-- C3: an N-page input yields `ceil(N / step)` output sheets — step 2 for
side-by-side and top-bottom, step 3 for top-bottom-3; in particular a 5-page
document yields 3 sheets side-by-side and 2 sheets with top-bottom-3.  The
two-up count follows the valid loop of src/pdf_rotator.py; the three-up
grouping is modelled from the spec because the CLI's `step` lines do not
parse (see `Driver.sheets3`). -/
theorem C3_sheet_counts :
    Driver.sheetsFor "side-by-side" 5 = 3 ∧
    Driver.sheetsFor "top-bottom" 5 = 3 ∧
    Driver.sheetsFor "top-bottom-3" 5 = 2 ∧
    (∀ n : ℕ, Driver.sheets2 n = (n + 1) / 2) ∧
    (∀ n : ℕ, Driver.sheets3 n = (n + 2) / 3) :=
  ⟨rfl, rfl, rfl, sheets2_eq, sheets3_eq⟩

/-!
Size-factor clamping.
-/

theorem size_clamp_15 : Cli.size_clamp (3 / 2) = Cli.size_clamp 1 := by
  unfold Cli.size_clamp
  rw [min_eq_left (by norm_num : (1 : ℚ) ≤ 3 / 2), min_self]

/-- C4: the transform computation clamps the size factor into [0.1, 1.0] and
rejects nothing; a size factor of 1.5 produces exactly the placement that a
size factor of 1.0 produces, in both the two-slot and the three-row
layouts. -/
theorem C4_size_factor_clamped (orientation : String) (gap : ℚ) (src : SrcPage)
    (slot_index : ℕ) (f : ℚ) :
    (1 / 10 ≤ Cli.size_clamp f ∧ Cli.size_clamp f ≤ 1) ∧
    Cli.place_rotated orientation gap (3 / 2) src slot_index =
      Cli.place_rotated orientation gap 1 src slot_index ∧
    Cli.place_at gap (3 / 2) src slot_index = Cli.place_at gap 1 src slot_index := by
  refine ⟨⟨le_max_left _ _, size_clamp_le_one f⟩, ?_, ?_⟩
  · simp [Cli.place_rotated, Cli.tx, Cli.ty, Cli.content_w, Cli.content_h,
      Cli.scale, size_clamp_15]
  · simp [Cli.place_at, Cli.scale3, size_clamp_15]

/-!
Totality of the fit-scale computation.
-/

/-- C9: the fit scale is always of the form `min r1 r2` where each ratio is
the true quotient `slot dimension / rotated dimension` when the rotated
dimension is non-zero and the constant 1 when it is zero, so the computation
is total and never divides by a zero dimension; with both dimensions zero
the fit scale is 1.  This holds for the CLI two-slot layout, the CLI
three-row layout and the GUI layout. -/
theorem C9_fit_scale_total (orientation : String) (gap : ℚ) (src : SrcPage) :
    (∃ r1 r2, Cli.max_scale orientation gap src = min r1 r2 ∧
      (src.height = 0 → r1 = 1) ∧
      (src.height ≠ 0 → r1 * src.height = Cli.slot_width orientation gap) ∧
      (src.width = 0 → r2 = 1) ∧
      (src.width ≠ 0 → r2 * src.width = Cli.slot_height orientation gap)) ∧
    (∃ r1 r2, Cli.max_scale3 gap src = min r1 r2 ∧
      (src.height = 0 → r1 = 1) ∧
      (src.height ≠ 0 → r1 * src.height = Cli.slot_width3) ∧
      (src.width = 0 → r2 = 1) ∧
      (src.width ≠ 0 → r2 * src.width = Cli.slot_height3 gap)) ∧
    (∃ r1 r2, Gui.scale orientation gap src = min r1 r2 ∧
      (src.height = 0 → r1 = 1) ∧
      (src.height ≠ 0 → r1 * src.height = Gui.slot_width orientation gap) ∧
      (src.width = 0 → r2 = 1) ∧
      (src.width ≠ 0 → r2 * src.width = Gui.slot_height orientation gap)) ∧
    Cli.max_scale orientation gap { width := 0, height := 0 } = 1 ∧
    Cli.max_scale3 gap { width := 0, height := 0 } = 1 ∧
    Gui.scale orientation gap { width := 0, height := 0 } = 1 := by
  refine ⟨⟨_, _, rfl, ?_, ?_, ?_, ?_⟩, ⟨_, _, rfl, ?_, ?_, ?_, ?_⟩,
    ⟨_, _, rfl, ?_, ?_, ?_, ?_⟩, ?_, ?_, ?_⟩ <;>
    first
    | (intro h
       first
       | rw [if_neg (not_not_intro h)]
       | (rw [if_pos h]; exact div_mul_cancel₀ _ h))
    | simp [Cli.max_scale, Cli.max_scale3, Gui.scale]

/-- Witness for C9 at a degenerate zero-by-zero page. -/
theorem C9_witness :
    (∃ r1 r2, Cli.max_scale "side-by-side" 20 { width := 0, height := 0 } = min r1 r2 ∧
      ((0 : ℚ) = 0 → r1 = 1) ∧
      ((0 : ℚ) ≠ 0 → r1 * 0 = Cli.slot_width "side-by-side" 20) ∧
      ((0 : ℚ) = 0 → r2 = 1) ∧
      ((0 : ℚ) ≠ 0 → r2 * 0 = Cli.slot_height "side-by-side" 20)) ∧
    (∃ r1 r2, Cli.max_scale3 20 { width := 0, height := 0 } = min r1 r2 ∧
      ((0 : ℚ) = 0 → r1 = 1) ∧
      ((0 : ℚ) ≠ 0 → r1 * 0 = Cli.slot_width3) ∧
      ((0 : ℚ) = 0 → r2 = 1) ∧
      ((0 : ℚ) ≠ 0 → r2 * 0 = Cli.slot_height3 20)) ∧
    (∃ r1 r2, Gui.scale "side-by-side" 20 { width := 0, height := 0 } = min r1 r2 ∧
      ((0 : ℚ) = 0 → r1 = 1) ∧
      ((0 : ℚ) ≠ 0 → r1 * 0 = Gui.slot_width "side-by-side" 20) ∧
      ((0 : ℚ) = 0 → r2 = 1) ∧
      ((0 : ℚ) ≠ 0 → r2 * 0 = Gui.slot_height "side-by-side" 20)) ∧
    Cli.max_scale "side-by-side" 20 { width := 0, height := 0 } = 1 ∧
    Cli.max_scale3 20 { width := 0, height := 0 } = 1 ∧
    Gui.scale "side-by-side" 20 { width := 0, height := 0 } = 1 :=
  C9_fit_scale_total "side-by-side" 20 { width := 0, height := 0 }

/-!
Unsupported orientation strings.
-/

/-- C10: every orientation string other than `top-bottom` — misspellings and
unsupported values included — makes the two-page composer silently use the
side-by-side slot geometry (half-width slots, full height); nothing is
rejected. -/
theorem C10_other_orientations_side_by_side (o : String) (ho : o ≠ "top-bottom")
    (gap f : ℚ) (src : SrcPage) (i : ℕ) :
    Cli.place_rotated o gap f src i = Cli.place_rotated "side-by-side" gap f src i ∧
    Cli.slot_rect2 o gap i = Cli.slot_rect2 "side-by-side" gap i ∧
    Gui.place_rotated o gap src i = Gui.place_rotated "side-by-side" gap src i := by
  have h2 : ("side-by-side" : String) ≠ "top-bottom" := by decide
  refine ⟨?_, ?_, ?_⟩
  · simp [Cli.place_rotated, Cli.tx, Cli.ty, Cli.content_w, Cli.content_h,
      Cli.scale, Cli.max_scale, Cli.slot_width, Cli.slot_height, Cli.base_x,
      Cli.base_y, ho, h2]
  · simp [Cli.slot_rect2, Cli.slot_width, Cli.slot_height, Cli.base_x,
      Cli.base_y, ho, h2]
  · simp [Gui.place_rotated, Gui.tx, Gui.ty, Gui.scale, Gui.slot_width,
      Gui.slot_height, ho, h2]

/-- Witness for C10 at the unsupported two-slot orientation string
`top-bottom-3` (the three-up layout name handed to the two-page composer). -/
theorem C10_witness :
    ("top-bottom-3" : String) ≠ "top-bottom" ∧
    (Cli.place_rotated "top-bottom-3" 20 1 { width := 612, height := 792 } 1 =
        Cli.place_rotated "side-by-side" 20 1 { width := 612, height := 792 } 1 ∧
      Cli.slot_rect2 "top-bottom-3" 20 1 = Cli.slot_rect2 "side-by-side" 20 1 ∧
      Gui.place_rotated "top-bottom-3" 20 { width := 612, height := 792 } 1 =
        Gui.place_rotated "side-by-side" 20 { width := 612, height := 792 } 1) :=
  ⟨by decide,
    C10_other_orientations_side_by_side "top-bottom-3" (by decide) 20 1
      { width := 612, height := 792 } 1⟩

/-!
Natural-sort merge order.
-/

theorem filePages_a (na : ℕ) : Merge.filePages { name := "a.pdf", numPages := na } =
    Merge.OutPage.title "a" :: (List.range na).map (Merge.OutPage.content "a.pdf") := by
  unfold Merge.filePages
  rw [show Merge.stem "a.pdf" = "a" from rfl, if_neg (by decide : ¬ ("a" : String) = "")]
  rfl

theorem filePages_b (nb : ℕ) : Merge.filePages { name := "b.pdf", numPages := nb } =
    Merge.OutPage.title "b" :: (List.range nb).map (Merge.OutPage.content "b.pdf") := by
  unfold Merge.filePages
  rw [show Merge.stem "b.pdf" = "b" from rfl, if_neg (by decide : ¬ ("b" : String) = "")]
  rfl

theorem filePages_c10 (nc : ℕ) : Merge.filePages { name := "c10.pdf", numPages := nc } =
    Merge.OutPage.title "c10" :: (List.range nc).map (Merge.OutPage.content "c10.pdf") := by
  unfold Merge.filePages
  rw [show Merge.stem "c10.pdf" = "c10" from rfl, if_neg (by decide : ¬ ("c10" : String) = "")]
  rfl

theorem sort_bac (na nb nc : ℕ) :
    Merge.sortFiles [{ name := "b.pdf", numPages := nb }, { name := "a.pdf", numPages := na },
      { name := "c10.pdf", numPages := nc }] =
    [{ name := "a.pdf", numPages := na }, { name := "b.pdf", numPages := nb },
      { name := "c10.pdf", numPages := nc }] := rfl

/-- C5: merging a directory holding `b.pdf`, `a.pdf`, `c10.pdf` produces the
page order title(a), a's pages, title(b), b's pages, title(c10), c10's
pages, whatever the page counts; file names are ordered by the natural key
(digit runs as integers — `file2.pdf` before `file10.pdf` — and
case-insensitive elsewhere), and each title page immediately precedes its
file's content pages. -/
theorem C5_merge_order (na nb nc : ℕ) :
    Merge.merge_pages [{ name := "b.pdf", numPages := nb },
        { name := "a.pdf", numPages := na }, { name := "c10.pdf", numPages := nc }] =
      (Merge.OutPage.title "a" :: (List.range na).map (Merge.OutPage.content "a.pdf")) ++
      ((Merge.OutPage.title "b" :: (List.range nb).map (Merge.OutPage.content "b.pdf")) ++
        (Merge.OutPage.title "c10" :: (List.range nc).map (Merge.OutPage.content "c10.pdf"))) ∧
    Merge.keyLt (Merge.natural_key "file2.pdf") (Merge.natural_key "file10.pdf") = true ∧
    Merge.keyLt (Merge.natural_key "file10.pdf") (Merge.natural_key "file2.pdf") = false ∧
    Merge.natural_key "A.PDF" = Merge.natural_key "a.pdf" := by
  refine ⟨?_, by decide, by decide, by decide⟩
  rw [Merge.merge_pages, sort_bac]
  simp [filePages_a, filePages_b, filePages_c10]

/-!
Error-handling policy of merge and of the layout tool.
-/

/-- C6 counterexample: a source whose strict read raises an error without a
truthy `strict` attribute (as pypdf's parse errors are) is not retried at
all, contradicting the claim that every parse failure is retried exactly
once; and in the layout tool a read error yields `-1` for the whole run
instead of skipping one sheet and continuing. -/
theorem C6_no_retry_counterexample :
    (MergeErr.MFile.mk "bad.pdf" (MergeErr.ReadOutcome.err false false)
        (MergeErr.ReadOutcome.ok 1)).firstRead.isErr = true ∧
    MergeErr.fileRetries
      { name := "bad.pdf", firstRead := MergeErr.ReadOutcome.err false false,
        retryRead := MergeErr.ReadOutcome.ok 1 } = 0 ∧
    MergeErr.process_pdf_result (MergeErr.ReadOutcome.err true true) = -1 :=
  ⟨rfl, rfl, rfl⟩

/-- C6 amended: a failed strict read is retried once in lenient mode exactly
when the raised error exposes a truthy `strict` attribute; a file whose
retry also fails is skipped (not merged) while the remaining files are still
processed; in the layout tool any read error aborts the whole run with
`-1`. -/
theorem C6_retry_policy (f : MergeErr.MFile) (rest : List MergeErr.MFile) :
    (∀ hs sv, f.firstRead = MergeErr.ReadOutcome.err hs sv →
      MergeErr.fileRetries f = if hs && sv then 1 else 0) ∧
    (∀ hs sv hs2 sv2, f.firstRead = MergeErr.ReadOutcome.err hs sv →
      f.retryRead = MergeErr.ReadOutcome.err hs2 sv2 →
      MergeErr.fileProcessed f = false) ∧
    (MergeErr.fileProcessed f = false →
      MergeErr.mergedCount (f :: rest) = MergeErr.mergedCount rest) ∧
    (∀ hs sv, MergeErr.process_pdf_result (MergeErr.ReadOutcome.err hs sv) = -1) := by
  refine ⟨?_, ?_, ?_, fun hs sv => rfl⟩
  · intro hs sv h
    unfold MergeErr.fileRetries
    rw [h]
  · intro hs sv hs2 sv2 h h2
    simp [MergeErr.fileProcessed, h, h2]
  · intro h
    simp [MergeErr.mergedCount, List.filter_cons, h]

/-- Witness for C6 at a file whose error carries `strict=True` and whose
lenient retry fails as well. -/
theorem C6_witness :
    MergeErr.fileRetries
      { name := "bad2.pdf", firstRead := MergeErr.ReadOutcome.err true true,
        retryRead := MergeErr.ReadOutcome.err false false } = 1 ∧
    MergeErr.fileProcessed
      { name := "bad2.pdf", firstRead := MergeErr.ReadOutcome.err true true,
        retryRead := MergeErr.ReadOutcome.err false false } = false ∧
    MergeErr.mergedCount
      [{ name := "bad2.pdf", firstRead := MergeErr.ReadOutcome.err true true,
          retryRead := MergeErr.ReadOutcome.err false false },
        { name := "ok.pdf", firstRead := MergeErr.ReadOutcome.ok 2,
          retryRead := MergeErr.ReadOutcome.ok 2 }] =
      MergeErr.mergedCount
        [{ name := "ok.pdf", firstRead := MergeErr.ReadOutcome.ok 2,
            retryRead := MergeErr.ReadOutcome.ok 2 }] ∧
    MergeErr.process_pdf_result (MergeErr.ReadOutcome.err true true) = -1 := by
  have h := C6_retry_policy
    { name := "bad2.pdf", firstRead := MergeErr.ReadOutcome.err true true,
      retryRead := MergeErr.ReadOutcome.err false false }
    [{ name := "ok.pdf", firstRead := MergeErr.ReadOutcome.ok 2,
        retryRead := MergeErr.ReadOutcome.ok 2 }]
  have hp := h.2.1 true true false false rfl rfl
  refine ⟨by simpa using h.1 true true rfl, hp, h.2.2.1 hp, h.2.2.2 true true⟩

/-!
Title page generation for empty and whitespace-only text.
-/

/-- C7 counterexample: a whitespace-only string passes the `if not text`
guard (only the empty string is falsy), so the generator renders a page for
it instead of returning `None` as the claim states. -/
theorem C7_whitespace_counterexample :
    Titles.make_title_page Titles.sw0 " " = some [" "] ∧
    Titles.make_title_page Titles.sw0 " " ≠ none := by
  have hlen : (" " : String).length = 1 := rfl
  have hnlt : ¬ Titles.max_width < Titles.sw0 " " := by
    rw [Titles.max_width, Titles.sw0, hlen, A4_WIDTH]
    norm_num
  have h : Titles.make_title_page Titles.sw0 " " = some [" "] := by
    unfold Titles.make_title_page Titles.title_lines
    rw [if_neg (by decide : ¬ (" " : String) = ""), if_neg hnlt]
  exact ⟨h, by rw [h]; exact Option.some_ne_none _⟩

/-- C7 amended: on the non-raising path the generator returns `None` exactly
for the empty string; every other text — whitespace-only included — yields
exactly one page carrying `title_lines` (rendering failures, caught by the
source and also mapped to `None`, are external to this embedding). -/
theorem C7_none_iff_empty (sw : String → ℚ) (text : String) :
    (Titles.make_title_page sw text = none ↔ text = "") ∧
    (text ≠ "" → Titles.make_title_page sw text = some (Titles.title_lines sw text)) := by
  unfold Titles.make_title_page
  constructor
  · by_cases h : text = "" <;> simp [h]
  · intro h
    rw [if_neg h]

/-- Witness for C7 at a non-empty text. -/
theorem C7_witness :
    (Titles.make_title_page Titles.sw0 "hello" = none ↔ ("hello" : String) = "") ∧
    (("hello" : String) ≠ "" →
      Titles.make_title_page Titles.sw0 "hello" =
        some (Titles.title_lines Titles.sw0 "hello")) :=
  C7_none_iff_empty Titles.sw0 "hello"

/-!
Greedy word-wrap: line quality and line counting.
-/

theorem joinWords_snoc (ps : List String) (p : String) :
    Titles.joinWords (ps ++ [p]) = Titles.testLine (Titles.joinWords ps) p := by
  unfold Titles.joinWords
  rw [List.foldl_append]
  rfl

theorem testLine_ne_empty (current p : String) (hp : p ≠ "") :
    Titles.testLine current p ≠ "" := by
  unfold Titles.testLine
  by_cases h : current = ""
  · rw [if_pos h]; exact hp
  · rw [if_neg h]
    intro hcontra
    have hlen := congrArg String.length hcontra
    rw [String.length_append, String.length_append] at hlen
    rw [show (" " : String).length = 1 from rfl, show ("" : String).length = 0 from rfl] at hlen
    have hcc : 0 < current.length := by
      rcases Nat.eq_zero_or_pos current.length with h0 | h0
      · exfalso
        have hd : current.data = [] := List.length_eq_zero.mp h0
        exact h (String.ext (hd.trans rfl))
      · exact h0
    omega

theorem pyWords_words_ne_empty (cs : List Char) :
    ∀ acc, ∀ w ∈ Titles.pyWords cs acc, w ≠ "" := by
  induction cs with
  | nil =>
    intro acc w hw
    unfold Titles.pyWords at hw
    split at hw
    · exact absurd hw (List.not_mem_nil w)
    · rename_i hacc
      rw [List.mem_singleton.mp hw]
      intro hcontra
      have : acc.reverse = [] := congrArg String.data hcontra
      exact hacc (List.reverse_eq_nil_iff.mp this)
  | cons c cs ih =>
    intro acc w hw
    unfold Titles.pyWords at hw
    split at hw
    · by_cases hacc : acc = []
      · rw [if_pos hacc] at hw
        exact ih [] w hw
      · rw [if_neg hacc] at hw
        rcases List.mem_cons.mp hw with h1 | h1
        · rw [h1]
          intro hcontra
          have : acc.reverse = [] := congrArg String.data hcontra
          exact hacc (List.reverse_eq_nil_iff.mp this)
        · exact ih [] w h1
    · exact ih (c :: acc) w hw

theorem pySplit_words_ne_empty (s : String) : ∀ w ∈ Titles.pySplit s, w ≠ "" :=
  pyWords_words_ne_empty s.data []

theorem wrap_good_step (sw : String → ℚ) (maxW : ℚ) (parts : List String)
    (st : Titles.WrapState) (p : String) (hp : p ∈ parts)
    (h : Titles.LinesGood sw maxW parts st) :
    Titles.LinesGood sw maxW parts (Titles.wrapStep sw maxW st p) := by
  obtain ⟨hl, hc⟩ := h
  unfold Titles.wrapStep
  dsimp only
  by_cases hacc : sw (Titles.testLine st.current p) ≤ maxW
  · rw [if_pos hacc]
    exact ⟨hl, Or.inr hacc⟩
  · rw [if_neg hacc]
    have hlines1 : ∀ l ∈ (if st.current = "" then st.lines else st.lines ++ [st.current]),
        Titles.GoodLine sw maxW parts l := by
      by_cases hcur : st.current = ""
      · rw [if_pos hcur]; exact hl
      · rw [if_neg hcur]
        intro l hlmem
        rcases List.mem_append.mp hlmem with h1 | h1
        · exact hl l h1
        · rw [List.mem_singleton.mp h1]
          rcases hc with h2 | h2
          · exact absurd h2 hcur
          · exact Or.inl h2
    by_cases hwide : maxW < sw p
    · rw [if_pos hwide]
      refine ⟨?_, Or.inl rfl⟩
      intro l hlmem
      rcases List.mem_append.mp hlmem with h1 | h1
      · exact hlines1 l h1
      · rw [List.mem_singleton.mp h1]
        exact Or.inr ⟨hp, hwide⟩
    · rw [if_neg hwide]
      exact ⟨hlines1, Or.inr (not_lt.mp hwide)⟩

theorem wrap_good_fold (sw : String → ℚ) (maxW : ℚ) (parts : List String) :
    ∀ (ps : List String) (st : Titles.WrapState), (∀ p ∈ ps, p ∈ parts) →
      Titles.LinesGood sw maxW parts st →
      Titles.LinesGood sw maxW parts (ps.foldl (Titles.wrapStep sw maxW) st) := by
  intro ps
  induction ps with
  | nil => intro st _ h; exact h
  | cons p ps ih =>
    intro st hmem h
    rw [List.foldl_cons]
    exact ih _ (fun q hq => hmem q (List.mem_cons_of_mem _ hq))
      (wrap_good_step sw maxW parts st p (hmem p (List.mem_cons_self _ _)) h)

theorem wrap_finish_good (sw : String → ℚ) (maxW : ℚ) (parts : List String)
    (st : Titles.WrapState) (h : Titles.LinesGood sw maxW parts st) :
    ∀ l ∈ Titles.wrapFinish st, Titles.GoodLine sw maxW parts l := by
  obtain ⟨hl, hc⟩ := h
  unfold Titles.wrapFinish
  by_cases hcur : st.current = ""
  · rw [if_pos hcur]; exact hl
  · rw [if_neg hcur]
    intro l hlmem
    rcases List.mem_append.mp hlmem with h1 | h1
    · exact hl l h1
    · rw [List.mem_singleton.mp h1]
      rcases hc with h2 | h2
      · exact absurd h2 hcur
      · exact Or.inl h2

theorem wrapFinish_length (st : Titles.WrapState) :
    (Titles.wrapFinish st).length = Titles.wrapTotal st := by
  unfold Titles.wrapFinish Titles.wrapTotal
  by_cases h : st.current = ""
  · rw [if_pos h, if_pos h]
    rfl
  · rw [if_neg h, if_neg h]
    rw [List.length_append]
    rfl

theorem wrapTotal_mk (L : List String) (c : String) :
    Titles.wrapTotal { lines := L, current := c } =
      L.length + (if c = "" then 0 else 1) := rfl

theorem wrap_count_step (sw : String → ℚ) (maxW : ℚ) (processed : List String)
    (st : Titles.WrapState) (p : String) (hp : p ≠ "")
    (h : Titles.CountInv sw maxW processed st) :
    Titles.CountInv sw maxW (processed ++ [p]) (Titles.wrapStep sw maxW st p) := by
  unfold Titles.CountInv at h ⊢
  unfold Titles.wrapStep
  dsimp only
  rcases h with ⟨h1, h2, h3⟩ | h2tot | ⟨h1, h2, h3⟩
  · -- no break has happened yet: the current line joins all processed words
    by_cases hacc : sw (Titles.testLine st.current p) ≤ maxW
    · rw [if_pos hacc]
      refine Or.inl ⟨h1, ?_, Or.inr ⟨hacc, testLine_ne_empty st.current p hp⟩⟩
      rw [joinWords_snoc, ← h2]
    · rw [if_neg hacc]
      by_cases hcur : st.current = ""
      · -- only possible before any word: the first word itself is over-wide
        have hproc : processed = [] := by
          rcases h3 with h4 | ⟨_, h4⟩
          · exact h4
          · exact absurd hcur h4
        have htp : Titles.testLine st.current p = p := by
          unfold Titles.testLine
          rw [if_pos hcur]
        rw [htp] at hacc
        rw [if_pos hcur, if_pos (not_le.mp hacc)]
        refine Or.inr (Or.inr ⟨?_, rfl, ?_⟩)
        · rw [h1]
          rfl
        · rw [hproc]
          rfl
      · -- the joined line is flushed; two lines are now guaranteed
        have hlen0 : st.lines.length = 0 := by rw [h1]; rfl
        rw [if_neg hcur]
        by_cases hwide : maxW < sw p
        · rw [if_pos hwide]
          refine Or.inr (Or.inl ?_)
          rw [wrapTotal_mk, if_pos rfl, List.length_append, List.length_append]
          simp only [List.length_singleton]
          omega
        · rw [if_neg hwide]
          refine Or.inr (Or.inl ?_)
          rw [wrapTotal_mk, if_neg hp, List.length_append]
          simp only [List.length_singleton]
          omega
  · -- two lines already guaranteed: the total never drops
    have htot : 2 ≤ st.lines.length + (if st.current = "" then 0 else 1) := h2tot
    by_cases hacc : sw (Titles.testLine st.current p) ≤ maxW
    · rw [if_pos hacc]
      refine Or.inr (Or.inl ?_)
      rw [wrapTotal_mk, if_neg (testLine_ne_empty st.current p hp)]
      by_cases hcur : st.current = ""
      · rw [if_pos hcur] at htot
        omega
      · rw [if_neg hcur] at htot
        omega
    · rw [if_neg hacc]
      by_cases hcur : st.current = ""
      · rw [if_pos hcur]
        rw [if_pos hcur] at htot
        by_cases hwide : maxW < sw p
        · rw [if_pos hwide]
          refine Or.inr (Or.inl ?_)
          rw [wrapTotal_mk, if_pos rfl, List.length_append]
          simp only [List.length_singleton]
          omega
        · rw [if_neg hwide]
          refine Or.inr (Or.inl ?_)
          rw [wrapTotal_mk, if_neg hp]
          omega
      · rw [if_neg hcur]
        rw [if_neg hcur] at htot
        by_cases hwide : maxW < sw p
        · rw [if_pos hwide]
          refine Or.inr (Or.inl ?_)
          rw [wrapTotal_mk, if_pos rfl, List.length_append, List.length_append]
          simp only [List.length_singleton]
          omega
        · rw [if_neg hwide]
          refine Or.inr (Or.inl ?_)
          rw [wrapTotal_mk, if_neg hp, List.length_append]
          simp only [List.length_singleton]
          omega
  · -- one over-wide first word has been flushed, nothing pending
    have htp : Titles.testLine st.current p = p := by
      unfold Titles.testLine
      rw [if_pos h2]
    rw [htp]
    by_cases hacc : sw p ≤ maxW
    · rw [if_pos hacc]
      refine Or.inr (Or.inl ?_)
      rw [wrapTotal_mk, if_neg hp]
      omega
    · rw [if_neg hacc]
      rw [if_pos h2, if_pos (not_le.mp hacc)]
      refine Or.inr (Or.inl ?_)
      rw [wrapTotal_mk, if_pos rfl, List.length_append]
      simp only [List.length_singleton]
      omega

theorem wrap_count_fold (sw : String → ℚ) (maxW : ℚ) :
    ∀ (ps processed : List String) (st : Titles.WrapState),
      (∀ p ∈ ps, p ≠ "") → Titles.CountInv sw maxW processed st →
      Titles.CountInv sw maxW (processed ++ ps) (ps.foldl (Titles.wrapStep sw maxW) st) := by
  intro ps
  induction ps with
  | nil =>
    intro processed st _ h
    simpa using h
  | cons p ps ih =>
    intro processed st hmem h
    rw [List.foldl_cons]
    have hstep := wrap_count_step sw maxW processed st p (hmem p (List.mem_cons_self _ _)) h
    have hrec := ih (processed ++ [p]) _ (fun q hq => hmem q (List.mem_cons_of_mem _ hq)) hstep
    rw [List.append_assoc] at hrec
    simpa using hrec

/-- C8 counterexample: a non-empty text that is one single over-wide word
(24 characters at 20 points each exceed the 80 percent budget of about
476.2 points) makes the generator emit exactly one line, not the at least
two lines the claim states. -/
theorem C8_single_word_counterexample :
    Titles.max_width < Titles.sw0 "cccccccccccccccccccccccc" ∧
    ("cccccccccccccccccccccccc" : String) ≠ "" ∧
    Titles.title_lines Titles.sw0 "cccccccccccccccccccccccc" =
      ["cccccccccccccccccccccccc"] := by
  have hgt : Titles.max_width < Titles.sw0 "cccccccccccccccccccccccc" := by
    rw [Titles.max_width, Titles.sw0, show ("cccccccccccccccccccccccc" : String).length = 24 from rfl,
      A4_WIDTH]
    norm_num
  refine ⟨hgt, by decide, ?_⟩
  unfold Titles.title_lines
  rw [if_pos hgt,
    show Titles.pySplit "cccccccccccccccccccccccc" = ["cccccccccccccccccccccccc"] from rfl]
  unfold Titles.wrapLines
  rw [List.foldl_cons, List.foldl_nil]
  unfold Titles.wrapStep
  dsimp only
  rw [show Titles.testLine "" "cccccccccccccccccccccccc" = "cccccccccccccccccccccccc" from rfl]
  rw [if_neg (not_le.mpr hgt), if_pos rfl, if_pos hgt]
  unfold Titles.wrapFinish
  rw [if_pos rfl]
  rfl

/-- C8 amended: when the rendered width of the text exceeds the 80 percent
budget, wrapping runs, and (a) if the text holds at least two words whose
single-space rejoining still exceeds the budget, at least two lines are
produced (a single-word text yields its one word as one line, as the
counterexample shows); (b) every produced line is within the budget unless
it is one of the original words and wider than the budget, in which case it
stands alone, unmodified. -/
theorem C8_wrap_guarantees (sw : String → ℚ) (text : String)
    (h0 : Titles.max_width < sw text)
    (h1 : 2 ≤ (Titles.pySplit text).length)
    (h2 : Titles.max_width < sw (Titles.joinWords (Titles.pySplit text))) :
    2 ≤ (Titles.title_lines sw text).length ∧
    ∀ l ∈ Titles.title_lines sw text,
      Titles.GoodLine sw Titles.max_width (Titles.pySplit text) l := by
  have htl : Titles.title_lines sw text =
      Titles.wrapLines sw Titles.max_width (Titles.pySplit text) := by
    unfold Titles.title_lines
    rw [if_pos h0]
  rw [htl]
  unfold Titles.wrapLines
  have hne := pySplit_words_ne_empty text
  have hinit : Titles.CountInv sw Titles.max_width [] { lines := [], current := "" } := by
    unfold Titles.CountInv
    exact Or.inl ⟨rfl, rfl, Or.inl rfl⟩
  have hcount := wrap_count_fold sw Titles.max_width (Titles.pySplit text) []
    { lines := [], current := "" } hne hinit
  rw [List.nil_append] at hcount
  have hginit : Titles.LinesGood sw Titles.max_width (Titles.pySplit text)
      { lines := [], current := "" } := by
    unfold Titles.LinesGood
    exact ⟨fun l hl => absurd hl (List.not_mem_nil l), Or.inl rfl⟩
  have hgood := wrap_finish_good sw Titles.max_width (Titles.pySplit text) _
    (wrap_good_fold sw Titles.max_width (Titles.pySplit text) (Titles.pySplit text)
      { lines := [], current := "" } (fun p hp => hp) hginit)
  refine ⟨?_, hgood⟩
  rw [wrapFinish_length]
  unfold Titles.CountInv at hcount
  rcases hcount with ⟨hl, hc, hrest⟩ | htot | ⟨_, _, hlen1⟩
  · rcases hrest with hnil | ⟨hle, _⟩
    · rw [hnil] at h1
      simp at h1
    · rw [hc] at hle
      exact absurd h2 (not_lt.mpr hle)
  · exact htot
  · omega

/-- Witness for C8 at a two-word text whose rendered width and rejoined
width both exceed the budget. -/
theorem C8_witness :
    Titles.max_width < Titles.sw0 "aaaaaaaaaaaaaa bbbbbbbbbbbbbb" ∧
    2 ≤ (Titles.pySplit "aaaaaaaaaaaaaa bbbbbbbbbbbbbb").length ∧
    Titles.max_width <
      Titles.sw0 (Titles.joinWords (Titles.pySplit "aaaaaaaaaaaaaa bbbbbbbbbbbbbb")) ∧
    (2 ≤ (Titles.title_lines Titles.sw0 "aaaaaaaaaaaaaa bbbbbbbbbbbbbb").length ∧
      ∀ l ∈ Titles.title_lines Titles.sw0 "aaaaaaaaaaaaaa bbbbbbbbbbbbbb",
        Titles.GoodLine Titles.sw0 Titles.max_width
          (Titles.pySplit "aaaaaaaaaaaaaa bbbbbbbbbbbbbb") l) := by
  have e1 : Titles.sw0 "aaaaaaaaaaaaaa bbbbbbbbbbbbbb" = 20 * 29 := by
    rw [Titles.sw0, show ("aaaaaaaaaaaaaa bbbbbbbbbbbbbb" : String).length = 29 from rfl]
    norm_num
  have e2 : Titles.joinWords (Titles.pySplit "aaaaaaaaaaaaaa bbbbbbbbbbbbbb") =
      "aaaaaaaaaaaaaa bbbbbbbbbbbbbb" := rfl
  have h0 : Titles.max_width < Titles.sw0 "aaaaaaaaaaaaaa bbbbbbbbbbbbbb" := by
    rw [e1, Titles.max_width, A4_WIDTH]
    norm_num
  have h1 : 2 ≤ (Titles.pySplit "aaaaaaaaaaaaaa bbbbbbbbbbbbbb").length := by
    rw [show Titles.pySplit "aaaaaaaaaaaaaa bbbbbbbbbbbbbb" =
      ["aaaaaaaaaaaaaa", "bbbbbbbbbbbbbb"] from rfl]
    norm_num
  have h2 : Titles.max_width <
      Titles.sw0 (Titles.joinWords (Titles.pySplit "aaaaaaaaaaaaaa bbbbbbbbbbbbbb")) := by
    rw [e2]
    exact h0
  exact ⟨h0, h1, h2, C8_wrap_guarantees Titles.sw0 "aaaaaaaaaaaaaa bbbbbbbbbbbbbb" h0 h1 h2⟩
